import Mathlib

/-!
Verification of the Multimode-Robot-Behaviour repository.

This file gives a shallow embedding of the core components described by the
specification and settles the stated claims against it:

* `MyRobot` — the grid simulation engine (`src/myrobot/core/robot.py`):
  `Robot.move`, `Robot.add_wall`, `Robot.reset_simulation`,
  `Robot.set_grid_size` over an explicit `RobotState`.
* `Controllers` — the backend layer (`src/myrobot/controllers.py`):
  `SimulationController.move` and `Go1Controller.move`.
* `Go1Py` — the telemetry parser (`go1_py/parsers/robot.py`) and the
  command loop (`go1_py/dog.py`).

Machine bytes are modelled as `Nat`, Python floats as exact rationals `ℚ`,
Python exceptions as `Option`/`Except` failure, and Python `set` as a
duplicate-free insertion into a list.
-/

deriving instance DecidableEq for Except

/-- Python's `str.lower()`, modelled as a per-character lowering of the
string's characters. -/
def pyLower (s : String) : String := ⟨s.data.map Char.toLower⟩

namespace MyRobot

/-- Grid cell, mirroring the Python `Position` value class (equality by field). -/
structure Position where
  x : Int
  y : Int
deriving DecidableEq, Repr

/-- One entry of `Robot.move_log`, as appended by `Robot._log_move`.
The Python code stores `position_before` as a formatted string of the position
at logging time; we store the `Position` itself. -/
structure MoveRecord where
  direction : String
  success : Bool
  reason : String
  position_before : Position
  move_number : Nat
deriving DecidableEq, Repr

/-- The mutable state of the Python `Robot` object. -/
structure RobotState where
  start_position : Position
  position : Position
  grid_width : Int
  grid_height : Int
  walls : List (Int × Int)
  move_log : List MoveRecord
  simulation_stopped : Bool
deriving DecidableEq, Repr

/-- Source `Robot.__init__(start_x, start_y)`: 10×10 grid, no walls, empty log. -/
def Robot.init (start_x start_y : Int) : RobotState :=
  { start_position := ⟨start_x, start_y⟩
    position := ⟨start_x, start_y⟩
    grid_width := 10
    grid_height := 10
    walls := []
    move_log := []
    simulation_stopped := false }

/-- The Python `Direction` enumeration. -/
inductive Direction
  | up
  | down
  | left
  | right
  | backward
deriving DecidableEq, Repr

/-- Source `Direction(value)` resolution: the enum lookup by string value, which
raises `ValueError` (here: `none`) on an unrecognized value. -/
def Direction.ofString (s : String) : Option Direction :=
  if s = "up" then some .up
  else if s = "down" then some .down
  else if s = "left" then some .left
  else if s = "right" then some .right
  else if s = "backward" then some .backward
  else none

/-- Source `Robot._log_move(direction, success, reason)`: appends one record; the
recorded position is the robot's position at the time of logging. -/
def RobotState.log_move (s : RobotState) (direction : String) (success : Bool)
    (reason : String) : RobotState :=
  { s with move_log :=
      s.move_log ++ [⟨direction, success, reason, s.position, s.move_log.length + 1⟩] }

/-- The `new_x` computation of `Robot.move`: start from `position.x`, then
apply the if/elif chain's x updates for the resolved direction. -/
def RobotState.new_x (s : RobotState) : Direction → Int
  | .left => s.position.x - 1
  | .right => s.position.x + 1
  | .backward => s.position.x - 1
  | _ => s.position.x

/-- The `new_y` computation of `Robot.move`: start from `position.y`, then
apply the if/elif chain's y updates for the resolved direction. -/
def RobotState.new_y (s : RobotState) : Direction → Int
  | .up => s.position.y + 1
  | .down => s.position.y - 1
  | _ => s.position.y

/-- Source `Robot.move(direction)`: returns the Python boolean result together with
the state after the call. -/
def RobotState.move (s : RobotState) (direction : String) : Bool × RobotState :=
  if s.simulation_stopped then
    (false, s)
  else
    match Direction.ofString (pyLower direction) with
    | none => (false, { s with simulation_stopped := true })
    | some dir_enum =>
      let new_x : Int := s.new_x dir_enum
      let new_y : Int := s.new_y dir_enum
      if new_x < 0 ∨ new_x ≥ s.grid_width ∨ new_y < 0 ∨ new_y ≥ s.grid_height then
        let s1 := s.log_move direction false "boundary"
        (false, { s1 with simulation_stopped := true })
      else if (new_x, new_y) ∈ s.walls then
        let s1 := s.log_move direction false "obstacle"
        (false, { s1 with simulation_stopped := true })
      else
        let s1 := { s with position := ⟨new_x, new_y⟩ }
        (true, s1.log_move direction true "success")

/-- Source `Robot.reset_simulation()`. -/
def RobotState.reset_simulation (s : RobotState) : RobotState :=
  { s with position := ⟨s.start_position.x, s.start_position.y⟩
           move_log := []
           simulation_stopped := false }

/-- Source `Robot.set_grid_size(width, height)`. -/
def RobotState.set_grid_size (s : RobotState) (width height : Int) : RobotState :=
  { s with grid_width := width, grid_height := height }

/-- Python `set.add`: insert a coordinate pair if not already present. -/
def setAdd (l : List (Int × Int)) (p : Int × Int) : List (Int × Int) :=
  if p ∈ l then l else l ++ [p]

/-- Source `Robot.add_wall(x, y)`: raises `ValueError` (here: `.error`) when the cell
is the robot's current position; silently ignores out-of-bounds cells; adds the
wall to the set otherwise (set insertion: a no-op when already present). -/
def RobotState.add_wall (s : RobotState) (x y : Int) : Except String RobotState :=
  if (x, y) = (s.position.x, s.position.y) then
    .error "Cannot place wall at robot position"
  else if 0 ≤ x ∧ x < s.grid_width ∧ 0 ≤ y ∧ y < s.grid_height then
    .ok { s with walls := setAdd s.walls (x, y) }
  else
    .ok s

/-- Source `Robot.load_maze(layout)`. Returns the object's state after the call
together with the raised `ValueError` message, if any; Python keeps the
mutations made before the `raise`, so the state is returned in both cases.
Row `y` of the input is mapped to grid row `height - 1 - y`; the first `S`
wins; the final `stopped`/log reset only runs when nothing was raised. -/
def RobotState.load_maze (s : RobotState) (layout : List (List Char)) :
    RobotState × Option String :=
  match layout with
  | [] => (s, none)
  | row0 :: _ =>
    if row0.length = 0 then (s, none)
    else
      let H : Int := (layout.length : Int)
      let s0 := { s with grid_height := H, grid_width := (row0.length : Int), walls := [] }
      let cells : List (Nat × Nat × Char) :=
        layout.enum.flatMap fun yr => yr.2.enum.map fun xc => (xc.1, yr.1, xc.2)
      let step := fun (acc : RobotState × Bool) (c : Nat × Nat × Char) =>
        let grid_y : Int := H - 1 - (c.2.1 : Int)
        if c.2.2 = '#' then
          ({ acc.1 with walls := setAdd acc.1.walls ((c.1 : Int), grid_y) }, acc.2)
        else if c.2.2 = 'S' ∧ acc.2 = false then
          ({ acc.1 with start_position := ⟨(c.1 : Int), grid_y⟩
                        position := ⟨(c.1 : Int), grid_y⟩ }, true)
        else acc
      let r := cells.foldl step (s0, false)
      if r.2 = false ∧ (r.1.start_position.x, r.1.start_position.y) ∈ r.1.walls then
        (r.1, some "Start inside wall")
      else
        ({ r.1 with simulation_stopped := false, move_log := [] }, none)

/-- The mutating operations of the grid engine, for reasoning about
reachable states. -/
inductive GridOp
  | move (direction : String)
  | addWall (x y : Int)
  | loadMaze (layout : List (List Char))
  | reset

/-- Apply one operation; a raised exception leaves the caller with the
state as the call left it. -/
def GridOp.apply (s : RobotState) : GridOp → RobotState
  | .move d => (s.move d).2
  | .addWall x y =>
    match s.add_wall x y with
    | .ok s' => s'
    | .error _ => s
  | .loadMaze layout => (s.load_maze layout).1
  | .reset => s.reset_simulation

/-- Run a sequence of grid operations. -/
def runOps (s : RobotState) (ops : List GridOp) : RobotState :=
  ops.foldl GridOp.apply s

/-- Restriction to the two operations that cannot relocate the robot onto a
stale start cell: `move` and `addWall`. -/
def GridOp.isMoveOrAddWall : GridOp → Prop
  | .move _ => True
  | .addWall _ _ => True
  | _ => False

/-- The spec's displacement table: Up:+y, Down:−y, Left:−x, Right:+x,
Backward:−x. -/
def Direction.delta : Direction → Int × Int
  | .up => (0, 1)
  | .down => (0, -1)
  | .left => (-1, 0)
  | .right => (1, 0)
  | .backward => (-1, 0)

/-- The spec's safety invariant: while not stopped, the position is inside
`[0,width)×[0,height)` and not on a wall. -/
def RobotState.invariantOK (s : RobotState) : Prop :=
  s.simulation_stopped = false →
    0 ≤ s.position.x ∧ s.position.x < s.grid_width ∧
    0 ≤ s.position.y ∧ s.position.y < s.grid_height ∧
    (s.position.x, s.position.y) ∉ s.walls

/-- The end-to-end scenario's starting state: 5×5 grid, start `(0,0)`,
wall at `(2,0)` (the `add_wall` call succeeds since the robot is at `(0,0)`). -/
def scenarioStart : RobotState :=
  match ((Robot.init 0 0).set_grid_size 5 5).add_wall 2 0 with
  | .ok s => s
  | .error _ => Robot.init 0 0

/-- Scenario state after `move('right')`. -/
def scenario1 : RobotState := (scenarioStart.move "right").2

/-- Scenario state after `move('right'); move('right')`. -/
def scenario2 : RobotState := (scenario1.move "right").2

/-- Scenario state after `move('right'); move('right'); move('up')`. -/
def scenario3 : RobotState := (scenario2.move "up").2

end MyRobot

namespace Go1Py

/-- Source `distanceToWarning(distance)` from `go1_py/parsers/robot.py`; bytes are
`Nat`, Python floats are exact rationals. -/
def distanceToWarning (distance : Nat) : ℚ :=
  if (distance : ℚ) > 30 then 0
  else if (distance : ℚ) < 10 then 1
  else 0.2 + (0.8 * (30 - (distance : ℚ))) / 20

/-- The `DistanceWarning` record of `go1_py/state/robot.py`. -/
structure DistanceWarning where
  front : ℚ
  back : ℚ
  left : ℚ
  right : ℚ
deriving DecidableEq, Repr

/-- The `Robot` telemetry record of `go1_py/state/robot.py`, flattened
(`version.*`, `sn.*` become prefixed fields). -/
structure RobotFrame where
  version_hardware : String
  version_software : String
  sn_product : String
  sn_id : String
  temps : List Nat
  mode : Nat
  gaitType : Nat
  obstacles : List Nat
  state : String
  distanceWarning : DistanceWarning
deriving DecidableEq, Repr

/-- Source `Robot.__init__` defaults from `go1_py/state/robot.py`. -/
def RobotFrame.init : RobotFrame :=
  { version_hardware := "--"
    version_software := "--"
    sn_product := "--"
    sn_id := "--"
    temps := List.replicate 20 0
    mode := 0
    gaitType := 0
    obstacles := List.replicate 4 255
    state := "invalid"
    distanceWarning := ⟨0, 0, 0, 0⟩ }

/-- The unconditional part of `parse`: `robot.temps = payload[8:28]`. -/
def parseTier1 (payload : List Nat) : RobotFrame :=
  { RobotFrame.init with temps := (payload.drop 8).take 20 }

/-- The `len(payload) > 28` block of `parse`: mode, gait type, obstacles and
the four warning scalars. An out-of-range index (Python `IndexError`) is
`none`. -/
def parseTier2 (r : RobotFrame) (payload : List Nat) : Option RobotFrame :=
  if payload.length > 28 then do
    let mode ← payload[28]?
    let gaitType ← payload[29]?
    let obstacles := (payload.drop 30).take 4
    let state :=
      if mode = 2 then
        match gaitType with
        | 1 => "walk"
        | 2 => "run"
        | 3 => "climb"
        | _ => r.state
      else r.state
    let o0 ← obstacles[0]?
    let o1 ← obstacles[1]?
    let o2 ← obstacles[2]?
    let o3 ← obstacles[3]?
    pure { r with mode := mode, gaitType := gaitType, obstacles := obstacles,
                  state := state,
                  distanceWarning :=
                    { front := distanceToWarning o0
                      left := distanceToWarning o1
                      right := distanceToWarning o2
                      back := distanceToWarning o3 } }
  else pure r

/-- The product-name lookup table of `parse`, keyed by byte 0; an
unrecognized code leaves the Python local `name` unbound, so the f-string
that reads it raises — that failure is `none`. -/
def productName (b : Nat) : Option String :=
  match b with
  | 1 => some "Laikago"
  | 2 => some "Aliengo"
  | 3 => some "A1"
  | 4 => some "Go1"
  | 5 => some "B1"
  | _ => none

/-- The product-model lookup table of `parse`, keyed by byte 1; an
unrecognized code leaves the Python local `model` unbound, so the f-string
that reads it raises — that failure is `none`. -/
def productModel (b : Nat) : Option String :=
  match b with
  | 1 => some "AIR"
  | 2 => some "PRO"
  | 3 => some "EDU"
  | 4 => some "PC"
  | 5 => some "XX"
  | _ => none

/-- The `len(payload) >= 44` block of `parse`: product name/model lookup,
serial, hardware and software versions. -/
def parseTier3 (r : RobotFrame) (payload : List Nat) : Option RobotFrame :=
  if payload.length ≥ 44 then do
    let b0 ← payload[0]?
    let name ← productName b0
    let b1 ← payload[1]?
    let model ← productModel b1
    let r := { r with sn_product := name ++ "_" ++ model }
    let p2 ← payload[2]?
    let r ←
      if p2 < 255 then do
        let p3 ← payload[3]?
        let p4 ← payload[4]?
        let p5 ← payload[5]?
        let sid := toString p2 ++ "-" ++ toString p3 ++ "-" ++ toString p4 ++
          "[" ++ toString p5 ++ "]"
        pure { r with sn_id := sid }
      else pure r
    let p36 ← payload[36]?
    let r ←
      if p36 < 255 then do
        let p37 ← payload[37]?
        let p38 ← payload[38]?
        let hw := toString p36 ++ "." ++ toString p37 ++ "." ++ toString p38
        pure { r with version_hardware := hw }
      else pure r
    let p39 ← payload[39]?
    let p40 ← payload[40]?
    let p41 ← payload[41]?
    let sw := toString p39 ++ "." ++ toString p40 ++ "." ++ toString p41
    pure { r with version_software := sw }
  else pure r

/-- Source `parse(payload)` from `go1_py/parsers/robot.py`; `none` models a raised
exception. -/
def parse (payload : List Nat) : Option RobotFrame := do
  parseTier3 (← parseTier2 (parseTier1 payload) payload) payload

/-- Source `numpy.clip(v, -1, 1)` on one axis. -/
def clip1 (v : ℚ) : ℚ := min (max v (-1)) 1

/-- One vector published on the `controller/stick` topic. -/
structure Vec4 where
  x : ℚ
  y : ℚ
  z : ℚ
  w : ℚ
deriving DecidableEq, Repr

/-- Source `Dog.move(x,y,z,w)`: the single vector it publishes, with each axis
clamped to `[-1,1]`. -/
def Dog.movePub (x y z w : ℚ) : Vec4 := ⟨clip1 x, clip1 y, clip1 z, clip1 w⟩

/-- Source `Dog.stop_moving()`: publishes `move(0,0,0,0)`. -/
def Dog.stop_movingPub : Vec4 := Dog.movePub 0 0 0 0

/-- Python `int()` on a number: truncation toward zero. -/
def pyInt (q : ℚ) : Int := if 0 ≤ q then ⌊q⌋ else ⌈q⌉

/-- Source `Dog.move_over_time(x,y,z,w,t)`: the ordered list of vectors published
on the motion topic during the call (`FREQ = 10`; one publish per loop
iteration, then the failsafe stop). -/
def Dog.move_over_time (x y z w t : ℚ) : List Vec4 :=
  let FREQ : ℚ := 10
  ((List.range (pyInt (FREQ * t)).toNat).map fun _ => Dog.movePub x y z w) ++
    [Dog.stop_movingPub]

/-- Source `Dog.go_forward(speed, time)`. -/
def Dog.go_forwardPub (speed time : ℚ) : List Vec4 :=
  Dog.move_over_time 0 0 0 speed time

/-- Source `Dog.go_backward(speed, time)`. -/
def Dog.go_backwardPub (speed time : ℚ) : List Vec4 :=
  Dog.go_forwardPub (-speed) time

/-- Source `Dog.go_right(speed, time)`. -/
def Dog.go_rightPub (speed time : ℚ) : List Vec4 :=
  Dog.move_over_time speed 0 0 0 time

/-- Source `Dog.go_left(speed, time)`. -/
def Dog.go_leftPub (speed time : ℚ) : List Vec4 :=
  Dog.go_rightPub (-speed) time

end Go1Py

namespace Controllers

open MyRobot Go1Py

/-- Source `VALID_DIRECTIONS` from `controllers.py`. -/
def VALID_DIRECTIONS : List String := ["up", "down", "left", "right"]

/-- Source `SimulationController.move(direction, speed, time)`: the boolean result
together with the grid robot's state after the call; `speed`/`time` are
accepted and ignored. -/
def SimulationController.move (robot : RobotState) (direction : String)
    (speed time : ℚ) : Bool × RobotState :=
  let d := pyLower direction
  let _unusedSpeed := speed
  let _unusedTime := time
  if d ∈ VALID_DIRECTIONS then robot.move d
  else (false, robot)

/-- Source `Go1Controller.move(direction, speed, time)`: the boolean result together
with the list of vectors the underlying `Dog` publishes on the motion topic
during the call (`_direction_map` dispatch; speed clamped to `[0,1]` first). -/
def Go1Controller.move (direction : String) (speed time : ℚ) :
    Bool × List Vec4 :=
  let d := pyLower direction
  if d ∈ VALID_DIRECTIONS then
    let speed := max 0 (min 1 speed)
    if d = "up" then (true, Dog.go_forwardPub speed time)
    else if d = "down" then (true, Dog.go_backwardPub speed time)
    else if d = "left" then (true, Dog.go_leftPub speed time)
    else (true, Dog.go_rightPub speed time)
  else (false, [])

end Controllers

namespace MyRobot

/-- Membership after a Python set insertion. -/
theorem mem_setAdd {l : List (Int × Int)} {p q : Int × Int} :
    q ∈ setAdd l p ↔ q ∈ l ∨ q = p := by
  unfold setAdd
  split
  · constructor
    · exact Or.inl
    · rintro (hq | rfl)
      · exact hq
      · assumption
  · simp [List.mem_append]

/-- Inserting an element makes it a member. -/
theorem self_mem_setAdd (l : List (Int × Int)) (p : Int × Int) :
    p ∈ setAdd l p := mem_setAdd.mpr (Or.inr rfl)

/-- Inserting an already-present element changes nothing. -/
theorem setAdd_of_mem {l : List (Int × Int)} {p : Int × Int} (h : p ∈ l) :
    setAdd l p = l := by
  unfold setAdd
  exact if_pos h

end MyRobot

/-- C10: `reset_simulation` always succeeds and restores exactly the current
position (to the start position), the move log (to empty) and the stopped flag
(to false), while leaving the walls, the grid width, the grid height and the
start position unchanged. -/
theorem reset_restores_and_frames (s : MyRobot.RobotState) :
    s.reset_simulation.position = s.start_position ∧
    s.reset_simulation.move_log = [] ∧
    s.reset_simulation.simulation_stopped = false ∧
    s.reset_simulation.walls = s.walls ∧
    s.reset_simulation.grid_width = s.grid_width ∧
    s.reset_simulation.grid_height = s.grid_height ∧
    s.reset_simulation.start_position = s.start_position :=
  ⟨rfl, rfl, rfl, rfl, rfl, rfl, rfl⟩

/-- C6 counterexample: at obstacle distance 20 the distance-to-warning
conversion returns 0.2 + 0.8·10/20 = 3/5 = 0.6, which is not the claimed
0.7. -/
theorem distanceToWarning_at_twenty :
    Go1Py.distanceToWarning 20 = 3/5 ∧ Go1Py.distanceToWarning 20 ≠ 7/10 := by
  norm_num [Go1Py.distanceToWarning]

/-- C6 amended: the conversion returns exactly 0 when the distance is 31 or
more, exactly 1 when the distance is 9 or less, and at distance 20 returns
exactly 0.6 (the exact value of 0.2 + 0.8·(30−20)/20). -/
theorem distanceToWarning_bounds :
    (∀ d : Nat, 31 ≤ d → Go1Py.distanceToWarning d = 0) ∧
    (∀ d : Nat, d ≤ 9 → Go1Py.distanceToWarning d = 1) ∧
    Go1Py.distanceToWarning 20 = 3/5 := by
  refine ⟨?_, ?_, ?_⟩
  · intro d h
    have h30 : (30 : ℚ) < (d : ℚ) := by exact_mod_cast Nat.lt_of_lt_of_le (by norm_num) h
    simp [Go1Py.distanceToWarning, h30]
  · intro d h
    have h10 : (d : ℚ) < 10 := by exact_mod_cast Nat.lt_of_le_of_lt h (by norm_num)
    have h30 : ¬ ((30 : ℚ) < (d : ℚ)) := by
      intro hc
      have := lt_trans hc h10
      norm_num at this
    simp [Go1Py.distanceToWarning, h30, h10]
  · norm_num [Go1Py.distanceToWarning]

/-- Witness for the C6 theorem at distances 40, 5 and 20. -/
theorem distanceToWarning_bounds_w :
    Go1Py.distanceToWarning 40 = 0 ∧ Go1Py.distanceToWarning 5 = 1 ∧
    Go1Py.distanceToWarning 20 = 3/5 :=
  ⟨distanceToWarning_bounds.1 40 (by norm_num),
   distanceToWarning_bounds.2.1 5 (by norm_num),
   distanceToWarning_bounds.2.2⟩

/-- C4 counterexample: in the 5×5 scenario with start (0,0), wall (2,0) and
moves right, right, up, the final move log has length 2, not 3: the third
call is rejected as an already-stopped no-op and appends no record. -/
theorem scenario_log_has_two_records :
    MyRobot.scenario3.move_log.length = 2 ∧
    ¬ MyRobot.scenario3.move_log.length = 3 := by decide

/-- C4 amended: in the scenario, move 1 succeeds to (1,0); move 2 is
wall-blocked at (1,0) and sets stopped; move 3 is rejected with no state
change; the final position is (1,0) and the move log has length 2 with
outcomes [success, obstacle]. -/
theorem scenario_end_to_end :
    (MyRobot.scenarioStart.move "right").1 = true ∧
    MyRobot.scenario1.position = ⟨1, 0⟩ ∧
    (MyRobot.scenario1.move "right").1 = false ∧
    MyRobot.scenario2.position = ⟨1, 0⟩ ∧
    MyRobot.scenario2.simulation_stopped = true ∧
    MyRobot.scenario2.move_log.map (fun r => r.reason) = ["success", "obstacle"] ∧
    MyRobot.scenario2.move_log.map (fun r => r.success) = [true, false] ∧
    (MyRobot.scenario2.move "up").1 = false ∧
    MyRobot.scenario3 = MyRobot.scenario2 ∧
    MyRobot.scenario3.position = ⟨1, 0⟩ ∧
    MyRobot.scenario3.move_log.length = 2 := by decide

/-- C3 counterexample: from a fresh, non-stopped state, a move with the
unrecognized direction string "diagonal" returns failure and sets the stopped
flag but appends NO record to the move log, not exactly one as claimed. -/
theorem move_invalid_direction_appends_none :
    ((MyRobot.Robot.init 0 0).move "diagonal").1 = false ∧
    ((MyRobot.Robot.init 0 0).move "diagonal").2.simulation_stopped = true ∧
    ((MyRobot.Robot.init 0 0).move "diagonal").2.move_log.length = 0 ∧
    ¬ ((MyRobot.Robot.init 0 0).move "diagonal").2.move_log.length = 1 := by decide

/-- C3 amended: a call to move appends exactly one record unless the engine is
already stopped or the direction string is unrecognized, in which cases it
appends none; an unrecognized direction from a non-stopped state leaves the
log unchanged, sets the stopped flag, and returns failure. -/
theorem move_log_growth :
    (∀ s : MyRobot.RobotState, ∀ dir : String,
      s.simulation_stopped = true →
      (s.move dir).2 = s ∧ (s.move dir).1 = false) ∧
    (∀ s : MyRobot.RobotState, ∀ dir : String,
      s.simulation_stopped = false →
      MyRobot.Direction.ofString (pyLower dir) = none →
      (s.move dir).2.move_log = s.move_log ∧
      (s.move dir).2.simulation_stopped = true ∧
      (s.move dir).1 = false) ∧
    (∀ s : MyRobot.RobotState, ∀ dir : String, ∀ d : MyRobot.Direction,
      s.simulation_stopped = false →
      MyRobot.Direction.ofString (pyLower dir) = some d →
      (s.move dir).2.move_log.length = s.move_log.length + 1) := by
  refine ⟨?_, ?_, ?_⟩
  · intro s dir h
    simp [MyRobot.RobotState.move, h]
  · intro s dir h hd
    simp [MyRobot.RobotState.move, h, hd]
  · intro s dir d h hd
    simp only [MyRobot.RobotState.move, h, hd]
    split
    · simp_all
    · split
      · simp [MyRobot.RobotState.log_move]
      · split
        · simp [MyRobot.RobotState.log_move]
        · simp [MyRobot.RobotState.log_move]

/-- Witness for the C3 theorem: a stopped state, an unrecognized direction,
and a recognized direction, each at concrete inputs. -/
theorem move_log_growth_w :
    ((MyRobot.scenario2.move "up").2 = MyRobot.scenario2 ∧
      (MyRobot.scenario2.move "up").1 = false) ∧
    (((MyRobot.Robot.init 0 0).move "diagonal").2.move_log =
        (MyRobot.Robot.init 0 0).move_log ∧
      ((MyRobot.Robot.init 0 0).move "diagonal").2.simulation_stopped = true ∧
      ((MyRobot.Robot.init 0 0).move "diagonal").1 = false) ∧
    ((MyRobot.Robot.init 0 0).move "up").2.move_log.length =
      (MyRobot.Robot.init 0 0).move_log.length + 1 :=
  ⟨move_log_growth.1 MyRobot.scenario2 "up" (by decide),
   move_log_growth.2.1 (MyRobot.Robot.init 0 0) "diagonal" (by decide) (by decide),
   move_log_growth.2.2 (MyRobot.Robot.init 0 0) "up" .up (by decide) (by decide)⟩

/-- Moving "left" and moving "backward" from the same state give the same
result boolean and the same resulting position. -/
theorem move_left_eq_backward (t : MyRobot.RobotState) :
    (t.move "left").1 = (t.move "backward").1 ∧
    (t.move "left").2.position = (t.move "backward").2.position := by
  by_cases hst : t.simulation_stopped = true
  · simp [MyRobot.RobotState.move, hst]
  · have hst' : t.simulation_stopped = false := by simpa using hst
    have hl : MyRobot.Direction.ofString (pyLower "left") = some .left := by decide
    have hb : MyRobot.Direction.ofString (pyLower "backward") = some .backward := by
      decide
    have hx : t.new_x .left = t.new_x .backward := rfl
    have hy : t.new_y .left = t.new_y .backward := rfl
    simp only [MyRobot.RobotState.move, hst', hl, hb, hx, hy, Bool.false_eq_true,
      if_false]
    constructor <;> split_ifs <;> simp [MyRobot.RobotState.log_move]

/-- Candidate x coordinate equals the old x plus the spec displacement. -/
theorem new_x_eq_delta (s : MyRobot.RobotState) (d : MyRobot.Direction) :
    s.new_x d = s.position.x + d.delta.1 := by
  cases d <;> simp [MyRobot.RobotState.new_x, MyRobot.Direction.delta] <;> omega

/-- Candidate y coordinate equals the old y plus the spec displacement. -/
theorem new_y_eq_delta (s : MyRobot.RobotState) (d : MyRobot.Direction) :
    s.new_y d = s.position.y + d.delta.2 := by
  cases d <;> simp [MyRobot.RobotState.new_y, MyRobot.Direction.delta] <;> omega

/-- C1: from any non-stopped state, a move whose direction string resolves to
one of the five enum members and whose displaced candidate cell (per the fixed
table Up:+y, Down:−y, Left:−x, Right:+x, Backward:−x) is inside
[0,width)×[0,height) and not a wall, changes the position by exactly that
displacement, returns success, and leaves the stopped flag false; moreover
"left" and "backward" from equal states produce identical results. -/
theorem move_success_displacement (s : MyRobot.RobotState) (dirStr : String)
    (d : MyRobot.Direction)
    (hstop : s.simulation_stopped = false)
    (hdir : MyRobot.Direction.ofString (pyLower dirStr) = some d)
    (hx0 : 0 ≤ s.position.x + d.delta.1)
    (hxw : s.position.x + d.delta.1 < s.grid_width)
    (hy0 : 0 ≤ s.position.y + d.delta.2)
    (hyh : s.position.y + d.delta.2 < s.grid_height)
    (hwall : (s.position.x + d.delta.1, s.position.y + d.delta.2) ∉ s.walls) :
    (s.move dirStr).1 = true ∧
    (s.move dirStr).2.position.x = s.position.x + d.delta.1 ∧
    (s.move dirStr).2.position.y = s.position.y + d.delta.2 ∧
    (s.move dirStr).2.simulation_stopped = false ∧
    (∀ t : MyRobot.RobotState,
      (t.move "left").1 = (t.move "backward").1 ∧
      (t.move "left").2.position = (t.move "backward").2.position) := by
  have hnx := new_x_eq_delta s d
  have hny := new_y_eq_delta s d
  have hb : ¬ (s.new_x d < 0 ∨ s.new_x d ≥ s.grid_width ∨
      s.new_y d < 0 ∨ s.new_y d ≥ s.grid_height) := by
    rw [hnx, hny]
    push_neg
    exact ⟨hx0, hxw, hy0, hyh⟩
  have hw : (s.new_x d, s.new_y d) ∉ s.walls := by
    rw [hnx, hny]
    exact hwall
  simp only [MyRobot.RobotState.move, hstop, hdir, Bool.false_eq_true, if_false]
  rw [if_neg hb, if_neg hw]
  exact ⟨rfl, by simp [MyRobot.RobotState.log_move, hnx],
    by simp [MyRobot.RobotState.log_move, hny],
    by simp [MyRobot.RobotState.log_move, hstop],
    fun t => move_left_eq_backward t⟩

/-- Witness for the C1 theorem: moving up from the initial state at (0,0). -/
theorem move_success_displacement_w :
    (MyRobot.Robot.init 0 0).simulation_stopped = false ∧
    MyRobot.Direction.ofString (pyLower "up") = some .up ∧
    ((MyRobot.Robot.init 0 0).move "up").1 = true ∧
    ((MyRobot.Robot.init 0 0).move "up").2.position.x =
      (MyRobot.Robot.init 0 0).position.x + (MyRobot.Direction.delta .up).1 ∧
    ((MyRobot.Robot.init 0 0).move "up").2.position.y =
      (MyRobot.Robot.init 0 0).position.y + (MyRobot.Direction.delta .up).2 ∧
    ((MyRobot.Robot.init 0 0).move "up").2.simulation_stopped = false ∧
    ((MyRobot.Robot.init 0 0).move "left").2.position =
      ((MyRobot.Robot.init 0 0).move "backward").2.position := by
  have h := move_success_displacement (MyRobot.Robot.init 0 0) "up" .up
    (by decide) (by decide) (by decide) (by decide) (by decide) (by decide)
    (by decide)
  exact ⟨by decide, by decide, h.1, h.2.1, h.2.2.1, h.2.2.2.1,
    (h.2.2.2.2 (MyRobot.Robot.init 0 0)).2⟩

/-- C7: addWall targeting the robot's current cell signals an error (walls
unchanged, since the caller keeps the pre-call state); an in-bounds check
failure is silently rejected with the whole state unchanged; and whenever a
call succeeds, repeating it with the same cell returns the same state, so two
calls with an in-bounds, non-occupied cell leave the walls identical to one
call. -/
theorem add_wall_validation :
    (∀ s : MyRobot.RobotState, ∀ x y : Int,
      (x, y) = (s.position.x, s.position.y) →
      s.add_wall x y = .error "Cannot place wall at robot position") ∧
    (∀ s : MyRobot.RobotState, ∀ x y : Int,
      (x, y) ≠ (s.position.x, s.position.y) →
      ¬ (0 ≤ x ∧ x < s.grid_width ∧ 0 ≤ y ∧ y < s.grid_height) →
      s.add_wall x y = .ok s) ∧
    (∀ s s2 : MyRobot.RobotState, ∀ x y : Int,
      s.add_wall x y = .ok s2 → s2.add_wall x y = .ok s2) := by
  refine ⟨?_, ?_, ?_⟩
  · intro s x y h
    simp [MyRobot.RobotState.add_wall, h]
  · intro s x y h1 h2
    simp [MyRobot.RobotState.add_wall, h1, h2]
  · intro s s2 x y h
    unfold MyRobot.RobotState.add_wall at h
    by_cases h1 : (x, y) = (s.position.x, s.position.y)
    · rw [if_pos h1] at h
      cases h
    · by_cases h2 : 0 ≤ x ∧ x < s.grid_width ∧ 0 ≤ y ∧ y < s.grid_height
      · rw [if_neg h1, if_pos h2] at h
        cases h
        simp [MyRobot.RobotState.add_wall, h1, h2,
          MyRobot.setAdd_of_mem (MyRobot.self_mem_setAdd s.walls (x, y))]
      · rw [if_neg h1, if_neg h2] at h
        cases h
        simp [MyRobot.RobotState.add_wall, h1, h2]

/-- Witness for the C7 theorem: the three cases at concrete states. -/
theorem add_wall_validation_w :
    (MyRobot.Robot.init 0 0).add_wall 0 0 =
      .error "Cannot place wall at robot position" ∧
    (MyRobot.Robot.init 0 0).add_wall 20 0 = .ok (MyRobot.Robot.init 0 0) ∧
    ({ MyRobot.Robot.init 0 0 with walls := [(2, 0)] } : MyRobot.RobotState).add_wall 2 0 =
      .ok { MyRobot.Robot.init 0 0 with walls := [(2, 0)] } :=
  ⟨add_wall_validation.1 (MyRobot.Robot.init 0 0) 0 0 (by decide),
   add_wall_validation.2.1 (MyRobot.Robot.init 0 0) 20 0 (by decide) (by decide),
   add_wall_validation.2.2 (MyRobot.Robot.init 0 0) _ 2 0 (by decide)⟩

/-- A single `move` call preserves the safety invariant. -/
theorem move_preserves_invariantOK (s : MyRobot.RobotState) (dir : String)
    (h : s.invariantOK) : ((s.move dir).2).invariantOK := by
  by_cases hst : s.simulation_stopped = true
  · simpa [MyRobot.RobotState.move, hst] using h
  · have hst' : s.simulation_stopped = false := by simpa using hst
    cases hd : MyRobot.Direction.ofString (pyLower dir) with
    | none =>
      intro hstop
      simp [MyRobot.RobotState.move, hst', hd] at hstop
    | some d =>
      simp only [MyRobot.RobotState.move, hst', hd, Bool.false_eq_true, if_false]
      split_ifs with h1 h2
      · intro hstop
        simp [MyRobot.RobotState.log_move] at hstop
      · intro hstop
        simp [MyRobot.RobotState.log_move] at hstop
      · intro _
        push_neg at h1
        simp only [MyRobot.RobotState.log_move]
        exact ⟨h1.1, h1.2.1, h1.2.2.1, h1.2.2.2, h2⟩

/-- An `addWall` step preserves the safety invariant (a raised error leaves
the caller's state unchanged). -/
theorem add_wall_preserves_invariantOK (s : MyRobot.RobotState) (x y : Int)
    (h : s.invariantOK) :
    (MyRobot.GridOp.apply s (.addWall x y)).invariantOK := by
  simp only [MyRobot.GridOp.apply, MyRobot.RobotState.add_wall]
  split_ifs with h1 h2
  · exact h
  · intro hstop
    obtain ⟨hx0, hxw, hy0, hyh, hw⟩ := h hstop
    refine ⟨hx0, hxw, hy0, hyh, ?_⟩
    intro hmem
    simp only [MyRobot.mem_setAdd] at hmem
    rcases hmem with hin | heq
    · exact hw hin
    · exact h1 heq.symm
  · exact h

/-- C2 amended: for every sequence made of `move` and `addWall` operations
from a valid initial state, every reachable non-stopped state has its position
inside [0,width)×[0,height) and off the walls; `reset` (after a wall was
placed on the start cell) and `loadMaze` are excluded, as they can restore a
position that violates the invariant. -/
theorem invariant_under_move_addWall (s : MyRobot.RobotState)
    (ops : List MyRobot.GridOp) (hs : s.invariantOK)
    (hops : ∀ op ∈ ops, op.isMoveOrAddWall) :
    (MyRobot.runOps s ops).invariantOK := by
  induction ops generalizing s with
  | nil => exact hs
  | cons op rest ih =>
    have hop : op.isMoveOrAddWall := hops op (by simp)
    have hrest : ∀ o ∈ rest, o.isMoveOrAddWall := fun o ho => hops o (by simp [ho])
    cases op with
    | move dir =>
      exact ih (MyRobot.GridOp.apply s (.move dir))
        (move_preserves_invariantOK s dir hs) hrest
    | addWall x y =>
      exact ih (MyRobot.GridOp.apply s (.addWall x y))
        (add_wall_preserves_invariantOK s x y hs) hrest
    | loadMaze l =>
      exact absurd hop (by simp [MyRobot.GridOp.isMoveOrAddWall])
    | reset =>
      exact absurd hop (by simp [MyRobot.GridOp.isMoveOrAddWall])

/-- Witness for the C2 theorem: a concrete move and wall placement from the
initial state keep the invariant. -/
theorem invariant_under_move_addWall_w :
    (MyRobot.runOps (MyRobot.Robot.init 0 0)
      [.move "up", .addWall 3 3]).invariantOK :=
  invariant_under_move_addWall (MyRobot.Robot.init 0 0) [.move "up", .addWall 3 3]
    (fun _ => by decide)
    (by simp [List.forall_mem_cons, MyRobot.GridOp.isMoveOrAddWall])

/-- C2 counterexample: from the valid initial state at (0,0), the operation
sequence move right; addWall(0,0); reset reaches a state whose stopped flag is
false and whose current position (0,0) IS a member of the walls — reset
restored the start cell that addWall had meanwhile walled. -/
theorem reset_reaches_walled_position :
    (MyRobot.Robot.init 0 0).invariantOK ∧
    (MyRobot.runOps (MyRobot.Robot.init 0 0)
        [.move "right", .addWall 0 0, .reset]).simulation_stopped = false ∧
    ((MyRobot.runOps (MyRobot.Robot.init 0 0)
          [.move "right", .addWall 0 0, .reset]).position.x,
      (MyRobot.runOps (MyRobot.Robot.init 0 0)
          [.move "right", .addWall 0 0, .reset]).position.y) ∈
      (MyRobot.runOps (MyRobot.Robot.init 0 0)
          [.move "right", .addWall 0 0, .reset]).walls :=
  ⟨fun _ => by decide, by decide, by decide⟩

/-- C8: for any direction string that does not lower-case to one of up, down,
left, right (for example "backward" or "Backward"), both backend variants
return false without throwing and without dispatching: the simulation
controller leaves the grid robot untouched (no stopped flag is set at this
layer) and the hardware controller publishes nothing on the transport. -/
theorem backend_rejects_unknown_direction (robot : MyRobot.RobotState)
    (direction : String) (speed time : ℚ)
    (h : pyLower direction ∉ Controllers.VALID_DIRECTIONS) :
    Controllers.SimulationController.move robot direction speed time =
      (false, robot) ∧
    Controllers.Go1Controller.move direction speed time = (false, []) := by
  constructor
  · simp [Controllers.SimulationController.move, h]
  · simp [Controllers.Go1Controller.move, h]

/-- Witness for the C8 theorem at direction "Backward". -/
theorem backend_rejects_unknown_direction_w :
    pyLower "Backward" ∉ Controllers.VALID_DIRECTIONS ∧
    Controllers.SimulationController.move (MyRobot.Robot.init 0 0) "Backward"
      (1/2) 1 = (false, MyRobot.Robot.init 0 0) ∧
    Controllers.Go1Controller.move "Backward" (1/2) 1 = (false, []) :=
  ⟨by decide,
   (backend_rejects_unknown_direction (MyRobot.Robot.init 0 0) "Backward"
      (1/2) 1 (by decide)).1,
   (backend_rejects_unknown_direction (MyRobot.Robot.init 0 0) "Backward"
      (1/2) 1 (by decide)).2⟩

/-- C9: the vectors published on the motion topic during a
`move_over_time(x,y,z,w,t)` call are int(10·t) copies of the per-axis clamped
vector followed by exactly one zero vector; in particular the last vector
published before the call returns is the zero vector, and every clamped axis
lies in [-1, 1]. -/
theorem move_over_time_failsafe (x y z w t : ℚ) :
    Go1Py.Dog.move_over_time x y z w t =
      List.replicate (Go1Py.pyInt (10 * t)).toNat
          ⟨Go1Py.clip1 x, Go1Py.clip1 y, Go1Py.clip1 z, Go1Py.clip1 w⟩ ++
        [⟨0, 0, 0, 0⟩] ∧
    (Go1Py.Dog.move_over_time x y z w t).getLast? = some ⟨0, 0, 0, 0⟩ ∧
    ∀ v : ℚ, -1 ≤ Go1Py.clip1 v ∧ Go1Py.clip1 v ≤ 1 := by
  have hzero : Go1Py.Dog.stop_movingPub = (⟨0, 0, 0, 0⟩ : Go1Py.Vec4) := by
    norm_num [Go1Py.Dog.stop_movingPub, Go1Py.Dog.movePub, Go1Py.clip1]
  have htrace : Go1Py.Dog.move_over_time x y z w t =
      List.replicate (Go1Py.pyInt (10 * t)).toNat
          ⟨Go1Py.clip1 x, Go1Py.clip1 y, Go1Py.clip1 z, Go1Py.clip1 w⟩ ++
        [⟨0, 0, 0, 0⟩] := by
    simp only [Go1Py.Dog.move_over_time, hzero, Go1Py.Dog.movePub]
    rw [List.map_const', List.length_range]
  refine ⟨htrace, ?_, ?_⟩
  · rw [htrace, List.getLast?_concat]
  · intro v
    constructor
    · exact le_min (le_max_right v (-1)) (by norm_num)
    · exact min_le_right _ 1

/-- Tier 2 of the decode is the identity on payloads of at most 28 bytes. -/
theorem parseTier2_short (r : Go1Py.RobotFrame) (payload : List Nat)
    (h : payload.length ≤ 28) : Go1Py.parseTier2 r payload = some r := by
  unfold Go1Py.parseTier2
  rw [if_neg (by omega)]
  rfl

/-- Tier 3 of the decode is the identity on payloads below 44 bytes. -/
theorem parseTier3_short (r : Go1Py.RobotFrame) (payload : List Nat)
    (h : payload.length < 44) : Go1Py.parseTier3 r payload = some r := by
  unfold Go1Py.parseTier3
  rw [if_neg (by omega)]
  rfl

/-- Tier 2 of the decode succeeds on payloads of at least 34 bytes. -/
theorem parseTier2_isSome (r : Go1Py.RobotFrame) (payload : List Nat)
    (h : 34 ≤ payload.length) : (Go1Py.parseTier2 r payload).isSome = true := by
  unfold Go1Py.parseTier2
  rw [if_pos (by omega)]
  have h28 := List.getElem?_eq_getElem (show 28 < payload.length by omega)
  have h29 := List.getElem?_eq_getElem (show 29 < payload.length by omega)
  have hlen : ((payload.drop 30).take 4).length = 4 := by
    rw [List.length_take, List.length_drop]
    omega
  have o0 := List.getElem?_eq_getElem
    (show 0 < ((payload.drop 30).take 4).length by omega)
  have o1 := List.getElem?_eq_getElem
    (show 1 < ((payload.drop 30).take 4).length by omega)
  have o2 := List.getElem?_eq_getElem
    (show 2 < ((payload.drop 30).take 4).length by omega)
  have o3 := List.getElem?_eq_getElem
    (show 3 < ((payload.drop 30).take 4).length by omega)
  simp only [h28, h29, o0, o1, o2, o3, Option.some_bind]
  rfl

/-- A recognized product-name code (1–5) resolves in the lookup table. -/
theorem productName_isSome (b : Nat) (h1 : 1 ≤ b) (h2 : b ≤ 5) :
    ∃ s, Go1Py.productName b = some s := by
  interval_cases b <;> exact ⟨_, rfl⟩

/-- A recognized product-model code (1–5) resolves in the lookup table. -/
theorem productModel_isSome (b : Nat) (h1 : 1 ≤ b) (h2 : b ≤ 5) :
    ∃ s, Go1Py.productModel b = some s := by
  interval_cases b <;> exact ⟨_, rfl⟩

/-- Tier 3 of the decode succeeds on payloads of at least 44 bytes whose
product-name and product-model code bytes are recognized. -/
theorem parseTier3_isSome (r : Go1Py.RobotFrame) (payload : List Nat)
    (h : 44 ≤ payload.length)
    (hb0 : ∀ b, payload[0]? = some b → 1 ≤ b ∧ b ≤ 5)
    (hb1 : ∀ b, payload[1]? = some b → 1 ≤ b ∧ b ≤ 5) :
    (Go1Py.parseTier3 r payload).isSome = true := by
  unfold Go1Py.parseTier3
  rw [if_pos (by omega)]
  have h0 := List.getElem?_eq_getElem (show 0 < payload.length by omega)
  have h1 := List.getElem?_eq_getElem (show 1 < payload.length by omega)
  have h2 := List.getElem?_eq_getElem (show 2 < payload.length by omega)
  have h3 := List.getElem?_eq_getElem (show 3 < payload.length by omega)
  have h4 := List.getElem?_eq_getElem (show 4 < payload.length by omega)
  have h5 := List.getElem?_eq_getElem (show 5 < payload.length by omega)
  have h36 := List.getElem?_eq_getElem (show 36 < payload.length by omega)
  have h37 := List.getElem?_eq_getElem (show 37 < payload.length by omega)
  have h38 := List.getElem?_eq_getElem (show 38 < payload.length by omega)
  have h39 := List.getElem?_eq_getElem (show 39 < payload.length by omega)
  have h40 := List.getElem?_eq_getElem (show 40 < payload.length by omega)
  have h41 := List.getElem?_eq_getElem (show 41 < payload.length by omega)
  obtain ⟨nm, hnm⟩ := productName_isSome payload[0] (hb0 _ h0).1 (hb0 _ h0).2
  obtain ⟨md, hmd⟩ := productModel_isSome payload[1] (hb1 _ h1).1 (hb1 _ h1).2
  simp only [h0, h1, h2, h3, h4, h5, h36, h37, h38, h39, h40, h41, hnm, hmd,
    Option.bind_eq_bind, Option.some_bind, Option.pure_def]
  split_ifs <;> simp [Option.bind_eq_bind, Option.some_bind, Option.pure_def]

/-- C5 counterexample: the decode raises (returns no frame) on a payload of
length 30 — the gating `len > 28` admits it but the obstacle reads at indexes
30–33 overrun it — and on a payload of length 44 whose product-name code
byte 0 is the unrecognized value 0, which aborts the whole decode, not just
the sub-field. -/
theorem parse_raises :
    Go1Py.parse (List.replicate 30 0) = none ∧
    Go1Py.parse (List.replicate 44 0) = none := by decide

/-- C5 amended: the decode returns a partial frame without raising on
payloads of at most 28 bytes (trailing fields at their defaults) and on
payloads of 34 to 43 bytes; for 44 bytes or more it returns a frame without
raising provided bytes 0 and 1 hold recognized codes (1–5); lengths 29–33,
and unrecognized codes at 44+, make the decode raise. -/
theorem parse_partial_decode :
    (∀ payload : List Nat, payload.length ≤ 28 →
      Go1Py.parse payload = some (Go1Py.parseTier1 payload)) ∧
    (∀ payload : List Nat, 34 ≤ payload.length → payload.length < 44 →
      (Go1Py.parse payload).isSome = true) ∧
    (∀ payload : List Nat, 44 ≤ payload.length →
      (∀ b, payload[0]? = some b → 1 ≤ b ∧ b ≤ 5) →
      (∀ b, payload[1]? = some b → 1 ≤ b ∧ b ≤ 5) →
      (Go1Py.parse payload).isSome = true) := by
  refine ⟨?_, ?_, ?_⟩
  · intro p h
    unfold Go1Py.parse
    rw [parseTier2_short _ _ h]
    exact parseTier3_short _ _ (by omega)
  · intro p h34 h44
    unfold Go1Py.parse
    obtain ⟨r2, hr2⟩ := Option.isSome_iff_exists.mp (parseTier2_isSome
      (Go1Py.parseTier1 p) p h34)
    rw [hr2]
    show (Go1Py.parseTier3 r2 p).isSome = true
    rw [parseTier3_short _ _ h44]
    rfl
  · intro p h44 hb0 hb1
    unfold Go1Py.parse
    obtain ⟨r2, hr2⟩ := Option.isSome_iff_exists.mp (parseTier2_isSome
      (Go1Py.parseTier1 p) p (by omega))
    rw [hr2]
    show (Go1Py.parseTier3 r2 p).isSome = true
    exact parseTier3_isSome _ _ h44 hb0 hb1

/-- Witness for the C5 theorem: a short payload, a mid-length payload, and a
44-byte payload with recognized product codes. -/
theorem parse_partial_decode_w :
    Go1Py.parse (List.replicate 10 3) =
      some (Go1Py.parseTier1 (List.replicate 10 3)) ∧
    (Go1Py.parse (List.replicate 34 7)).isSome = true ∧
    (Go1Py.parse (List.replicate 44 1)).isSome = true :=
  ⟨parse_partial_decode.1 (List.replicate 10 3) (by decide),
   parse_partial_decode.2.1 (List.replicate 34 7) (by decide) (by decide),
   parse_partial_decode.2.2 (List.replicate 44 1) (by decide)
     (by decide) (by decide)⟩

/-- Witness for the C9 theorem at a concrete call: x = 2 (clamped to 1),
w = 1/2, duration 3/10 seconds, hence 3 publishes plus the failsafe stop. -/
theorem move_over_time_failsafe_w :
    Go1Py.Dog.move_over_time 2 0 0 (1/2) (3/10) =
      List.replicate (Go1Py.pyInt (10 * (3/10))).toNat
          ⟨Go1Py.clip1 2, Go1Py.clip1 0, Go1Py.clip1 0, Go1Py.clip1 (1/2)⟩ ++
        [⟨0, 0, 0, 0⟩] ∧
    (Go1Py.Dog.move_over_time 2 0 0 (1/2) (3/10)).getLast? =
      some ⟨0, 0, 0, 0⟩ :=
  ⟨(move_over_time_failsafe 2 0 0 (1/2) (3/10)).1,
   (move_over_time_failsafe 2 0 0 (1/2) (3/10)).2.1⟩

/-- Witness for the C10 theorem at a concrete mid-run state. -/
theorem reset_restores_and_frames_w :
    MyRobot.scenario2.reset_simulation.position =
      MyRobot.scenario2.start_position ∧
    MyRobot.scenario2.reset_simulation.move_log = [] ∧
    MyRobot.scenario2.reset_simulation.simulation_stopped = false ∧
    MyRobot.scenario2.reset_simulation.walls = MyRobot.scenario2.walls ∧
    MyRobot.scenario2.reset_simulation.grid_width =
      MyRobot.scenario2.grid_width ∧
    MyRobot.scenario2.reset_simulation.grid_height =
      MyRobot.scenario2.grid_height ∧
    MyRobot.scenario2.reset_simulation.start_position =
      MyRobot.scenario2.start_position :=
  reset_restores_and_frames MyRobot.scenario2
